import Mathlib

/-!
Verification development for a repository of three Python utility modules:
SQLBuilder.py, file_creation_modified_date.py, general_logger_setup.py.
Each module is shallowly embedded as executable Lean definitions, and the
specification's claims about them are settled as theorems.
-/

set_option linter.unusedVariables false

namespace SQLBuilderPy

/-- Embedding of SQLBuilder.col_selection.  The Python method sets
selection_text to the literal SELECT followed by a space, appends
each argument but the last followed by a comma and a space, and finally
appends the last argument via selection_args[-1], which raises IndexError
on an empty argument tuple.  The error branch models that exception. -/
def col_selection (selection_args : List String) : Except String String :=
  let selection_text : String :=
    List.foldl (fun acc arg => acc ++ arg ++ ", ") "SELECT " selection_args.dropLast
  match selection_args.getLast? with
  | some last => Except.ok (selection_text ++ last)
  | none => Except.error "IndexError: tuple index out of range"

/-- ASCII-faithful model of Python str.lower, applied characterwise.
(The connector keys compared in where_clause are ASCII identifiers.) -/
def strLower (s : String) : String := String.mk (s.data.map Char.toLower)

/-- Embedding of SQLBuilder.where_clause.  The Python method sets
where_text to WHERE followed by first_arg and a space, then iterates the
keyword mapping in insertion order, appending AND value and a space when
the lowercased key is w_and, OR value and a space when it is w_or, and
nothing otherwise. -/
def where_clause (first_arg : String) (where_kwargs : List (String × String)) : String :=
  List.foldl
    (fun acc kv =>
      if strLower kv.1 = "w_and" then acc ++ "AND " ++ kv.2 ++ " "
      else if strLower kv.1 = "w_or" then acc ++ "OR " ++ kv.2 ++ " "
      else acc)
    ("WHERE " ++ first_arg ++ " ")
    where_kwargs

/-- Spec-side form of a SELECT clause body: the column names
comma-and-space separated with no trailing separator. -/
def commaJoin : List String → String
  | [] => ""
  | [c] => c
  | c :: c2 :: cs => c ++ ", " ++ commaJoin (c2 :: cs)

/-- Spec-side connector keyword for a recognized where_clause key. -/
def connectorWord (key : String) : String :=
  if strLower key = "w_and" then "AND" else "OR"

/-- Spec-side list of connector segments, one per mapping entry in order;
each segment is the connector keyword, a space, the predicate, a space. -/
def whereSpecSegs : List (String × String) → String
  | [] => ""
  | kv :: rest => connectorWord kv.1 ++ " " ++ kv.2 ++ " " ++ whereSpecSegs rest

/-- Spec-side form of a WHERE clause: WHERE, the base predicate, then one
connector segment per mapping entry in order (each segment as the code
emits it, ending in a space). -/
def whereSpec (first_arg : String) (entries : List (String × String)) : String :=
  "WHERE " ++ first_arg ++ " " ++ whereSpecSegs entries

theorem col_sel_loop (init c : String) (cs : List String) :
    (match (c :: cs).getLast? with
     | some last =>
        Except.ok ((List.foldl (fun acc arg => acc ++ arg ++ ", ") init
          ((c :: cs).dropLast)) ++ last)
     | none => (Except.error "IndexError: tuple index out of range" : Except String String))
      = Except.ok (init ++ commaJoin (c :: cs)) := by
  induction cs generalizing init c with
  | nil => simp [commaJoin]
  | cons c2 cs2 ih =>
      have h := ih (init ++ c ++ ", ") c2
      simpa [commaJoin, List.getLast?_cons_cons, List.dropLast, String.append_assoc] using h

theorem commaJoin_comma_count (c : String) (cs : List String)
    (hc : ',' ∉ c.data) (hcs : ∀ x ∈ cs, ',' ∉ x.data) :
    (commaJoin (c :: cs)).data.count ',' = cs.length := by
  induction cs generalizing c with
  | nil => simpa [commaJoin] using List.count_eq_zero.mpr hc
  | cons c2 cs2 ih =>
      have h2 : ',' ∉ c2.data := hcs c2 (by simp)
      have hrest : ∀ x ∈ cs2, ',' ∉ x.data := fun x hx => hcs x (by simp [hx])
      have := ih c2 h2 hrest
      simp [commaJoin, String.data_append, List.count_append, this,
        List.count_eq_zero.mpr hc]

theorem litAnd (x : String) : ("AND" : String) ++ (" " ++ x) = "AND " ++ x := by
  have h : ("AND" : String) ++ " " = "AND " := by decide
  rw [← String.append_assoc, h]

theorem litOr (x : String) : ("OR" : String) ++ (" " ++ x) = "OR " ++ x := by
  have h : ("OR" : String) ++ " " = "OR " := by decide
  rw [← String.append_assoc, h]

theorem where_loop (entries : List (String × String)) :
    ∀ init : String,
      (∀ kv ∈ entries, strLower kv.1 = "w_and" ∨ strLower kv.1 = "w_or") →
      List.foldl
        (fun acc kv =>
          if strLower kv.1 = "w_and" then acc ++ "AND " ++ kv.2 ++ " "
          else if strLower kv.1 = "w_or" then acc ++ "OR " ++ kv.2 ++ " "
          else acc)
        init entries = init ++ whereSpecSegs entries := by
  induction entries with
  | nil => intro init h; simp [whereSpecSegs]
  | cons kv rest ih =>
      intro init h
      have hrest : ∀ kv2 ∈ rest, strLower kv2.1 = "w_and" ∨ strLower kv2.1 = "w_or" :=
        fun kv2 hm => h kv2 (by simp [hm])
      rcases h kv (by simp) with hand | hor
      · have hstep := ih (init ++ "AND " ++ kv.2 ++ " ") hrest
        rw [List.foldl_cons, if_pos hand, hstep]
        simp only [whereSpecSegs, connectorWord, if_pos hand]
        simp [String.append_assoc, litAnd]
      · have hne : strLower kv.1 ≠ "w_and" := by
          rw [hor]; decide
        have hstep := ih (init ++ "OR " ++ kv.2 ++ " ") hrest
        rw [List.foldl_cons, if_neg hne, if_pos hor, hstep]
        simp only [whereSpecSegs, connectorWord, if_neg hne]
        simp [String.append_assoc, litOr]

/-- C1: for every non-empty sequence of column-name strings, col_selection
produces the string SELECT followed by the columns comma-and-space
separated with no trailing separator; when no column name contains a
comma the output holds exactly one comma per separator, i.e.
len(columns) - 1 commas; and on the five-column example from the source it
yields exactly the documented string. -/
theorem col_selection_select_form (cols : List String) (h : cols ≠ []) :
    col_selection cols = Except.ok ("SELECT " ++ commaJoin cols) ∧
    ((∀ c ∈ cols, ',' ∉ c.data) →
      ("SELECT " ++ commaJoin cols).data.count ',' = cols.length - 1) ∧
    col_selection ["DATETIME", "ARG_WORKS", "LOCATION", "CHECK2", "ARG_WORKS"]
      = Except.ok "SELECT DATETIME, ARG_WORKS, LOCATION, CHECK2, ARG_WORKS" := by
  obtain ⟨c, cs, rfl⟩ : ∃ c cs, cols = c :: cs := by
    cases cols with
    | nil => exact absurd rfl h
    | cons c cs => exact ⟨c, cs, rfl⟩
  refine ⟨?_, ?_, rfl⟩
  · simpa [col_selection] using col_sel_loop "SELECT " c cs
  · intro hc
    have hcount := commaJoin_comma_count c cs (hc c (by simp))
      (fun x hx => hc x (by simp [hx]))
    have h0 : ("SELECT ".data.count ',') = 0 := by decide
    simp [String.data_append, List.count_append, hcount, h0]

theorem col_selection_select_form_witness :
    col_selection ["DATETIME", "ARG_WORKS", "LOCATION", "CHECK2", "ARG_WORKS"]
      = Except.ok ("SELECT "
          ++ commaJoin ["DATETIME", "ARG_WORKS", "LOCATION", "CHECK2", "ARG_WORKS"]) ∧
    ("SELECT " ++ commaJoin ["DATETIME", "ARG_WORKS", "LOCATION", "CHECK2", "ARG_WORKS"]).data.count ','
      = ["DATETIME", "ARG_WORKS", "LOCATION", "CHECK2", "ARG_WORKS"].length - 1 :=
  ⟨(col_selection_select_form
      ["DATETIME", "ARG_WORKS", "LOCATION", "CHECK2", "ARG_WORKS"] (by decide)).1,
   (col_selection_select_form
      ["DATETIME", "ARG_WORKS", "LOCATION", "CHECK2", "ARG_WORKS"] (by decide)).2.1
      (by decide)⟩

/-- C2: for every base predicate and every ordered mapping whose keys are
all AND-markers or OR-markers (case-insensitively), where_clause produces
WHERE, the base predicate, then one AND-or-OR connector segment per entry
in the mapping's iteration order, with exactly one connector keyword per
entry (the whereSpec form); in particular the output starts with WHERE and
a space. -/
theorem where_clause_spec (first_arg : String) (where_kwargs : List (String × String))
    (h : ∀ kv ∈ where_kwargs, strLower kv.1 = "w_and" ∨ strLower kv.1 = "w_or") :
    where_clause first_arg where_kwargs = whereSpec first_arg where_kwargs ∧
    ∃ rest : String, where_clause first_arg where_kwargs = "WHERE " ++ rest := by
  have hmain : where_clause first_arg where_kwargs = whereSpec first_arg where_kwargs := by
    unfold where_clause whereSpec
    rw [where_loop where_kwargs ("WHERE " ++ first_arg ++ " ") h]
  refine ⟨hmain, first_arg ++ (" " ++ whereSpecSegs where_kwargs), ?_⟩
  rw [hmain]
  unfold whereSpec
  simp [String.append_assoc]

theorem where_clause_spec_witness :
    where_clause "a = 1" [("w_and", "b = 2"), ("W_OR", "c = 3")]
      = whereSpec "a = 1" [("w_and", "b = 2"), ("W_OR", "c = 3")] ∧
    ∃ rest : String,
      where_clause "a = 1" [("w_and", "b = 2"), ("W_OR", "c = 3")] = "WHERE " ++ rest :=
  where_clause_spec "a = 1" [("w_and", "b = 2"), ("W_OR", "c = 3")]
    (by intro kv hkv; fin_cases hkv <;> [exact Or.inl (by decide); exact Or.inr (by decide)])

/-- C3 counterexample: on the exact call made in the source, where_clause
does not return the claimed string: the built text ends with one extra
trailing space. -/
theorem where_clause_example_ne :
    where_clause "MATER = \u0027Howdy Pardner\u0027"
        [("w_and", "fog = \u0027low\u0027"), ("w_or", "LOCATION = 1")]
      ≠ "WHERE MATER = \u0027Howdy Pardner\u0027 AND fog = \u0027low\u0027 OR LOCATION = 1" := by
  decide

/-- C3 amended: the call produces the claimed string followed by one
trailing space (the loop appends a space after every predicate, the last
included). -/
theorem where_clause_example_eq :
    where_clause "MATER = \u0027Howdy Pardner\u0027"
        [("w_and", "fog = \u0027low\u0027"), ("w_or", "LOCATION = 1")]
      = "WHERE MATER = \u0027Howdy Pardner\u0027 AND fog = \u0027low\u0027 OR LOCATION = 1 " := by
  decide

/-- C5: calling col_selection with an empty sequence fails with an index
error (the Python code evaluates selection_args[-1] on an empty tuple)
rather than returning a well-formed SELECT string. -/
theorem col_selection_empty_fails :
    col_selection [] = Except.error "IndexError: tuple index out of range" := rfl

/-- C6: mapping entries whose key is neither the AND-marker w_and nor the
OR-marker w_or (case-insensitively) are silently ignored: the output
equals the output on the mapping with only the recognized entries kept,
and no error is raised (where_clause is total); the concrete example shows
an unrecognized key dropped while a recognized one is still appended. -/
theorem where_clause_ignores_unrecognized (first_arg : String)
    (where_kwargs : List (String × String)) :
    where_clause first_arg where_kwargs
      = where_clause first_arg (where_kwargs.filter
          (fun kv => strLower kv.1 == "w_and" || strLower kv.1 == "w_or")) ∧
    where_clause "b = 2" [("w_nand", "x = 1"), ("w_and", "a = 1")]
      = "WHERE b = 2 AND a = 1 " := by
  constructor
  · unfold where_clause
    generalize ("WHERE " ++ first_arg ++ " ") = init
    induction where_kwargs generalizing init with
    | nil => rfl
    | cons kv rest ih =>
        by_cases h1 : strLower kv.1 = "w_and"
        · simp [List.filter_cons, h1, ih]
        · by_cases h2 : strLower kv.1 = "w_or"
          · simp [List.filter_cons, h1, h2, ih]
          · simp [List.filter_cons, h1, h2, ih]
  · decide

end SQLBuilderPy

namespace FileDatePy

/-- The global names bound at module level in
file_creation_modified_date.py: its two imports (datetime, functools) and
the two module-level assignments.  The names time and os, used inside both
lambda bodies, are never imported. -/
def moduleGlobals : List String :=
  ["datetime", "functools", "CREATED_TIME", "MODIFIED_TIME"]

/-- Python global-name resolution at call time: if the name is bound among
the module globals the continuation runs, otherwise the call raises
NameError for that name. -/
def pyLookupGlobal {α : Type} (globalNames : List String) (n : String)
    (k : Unit → Except String α) : Except String α :=
  if globalNames.contains n then k ()
  else Except.error ("NameError: name \u0027" ++ n ++ "\u0027 is not defined")

/-- Embedding of the call CREATED_TIME(a).  The lambda body is
str(datetime.date(datetime.strptime(time.ctime(os.path.getctime(a)), fmt))).
Python resolves the callable of each call before its arguments, so the
lookups happen in the order datetime, time, os; `rest` abstracts the
remainder of the computation (ctime formatting, strptime parsing and date
extraction), which is never reached because time is unbound. -/
def CREATED_TIME (a : String) (rest : Unit → Except String String) :
    Except String String :=
  pyLookupGlobal moduleGlobals "datetime" (fun _ =>
    pyLookupGlobal moduleGlobals "time" (fun _ =>
      pyLookupGlobal moduleGlobals "os" rest))

/-- Embedding of the call MODIFIED_TIME(a): same lambda body shape, with
os.path.getmtime in place of os.path.getctime; the name-resolution
behaviour is identical. -/
def MODIFIED_TIME (a : String) (rest : Unit → Except String String) :
    Except String String :=
  pyLookupGlobal moduleGlobals "datetime" (fun _ =>
    pyLookupGlobal moduleGlobals "time" (fun _ =>
      pyLookupGlobal moduleGlobals "os" rest))

/-- C4: every call of CREATED_TIME or MODIFIED_TIME raises
NameError for the unimported name time, for every path and whatever the
rest of the computation would have produced, so neither accessor ever
returns a YYYY-MM-DD date string. -/
theorem timestamp_accessors_raise_nameerror (a : String)
    (rest : Unit → Except String String) :
    CREATED_TIME a rest
        = Except.error "NameError: name \u0027time\u0027 is not defined" ∧
    MODIFIED_TIME a rest
        = Except.error "NameError: name \u0027time\u0027 is not defined" :=
  ⟨rfl, rfl⟩

end FileDatePy

namespace GeneralLoggerPy

/-- Numeric severity levels of the logging module. -/
def DEBUG : Nat := 10

def INFO : Nat := 20

def WARNING : Nat := 30

def ERROR : Nat := 40

def CRITICAL : Nat := 50

/-- The kind of a handler attached by general_logger: a FileHandler (with
the requested file type and the appended-extension filename), the terminal
StreamHandler, or the SMTPHandler with its construction arguments. -/
inductive HandlerKind where
  | fileH (fileType : String) (filename : String)
  | stream
  | smtpH (mailhost : String) (fromaddr : List String) (toaddrs : List String)
      (subject : String) (credentials : Option (String × String))
deriving DecidableEq

/-- A handler together with the level set on it. -/
structure Handler where
  kind : HandlerKind
  level : Nat
deriving DecidableEq

/-- The mutable state of one named logger: its level, propagate flag and
attached handlers, in attachment order. -/
structure LoggerState where
  level : Nat
  propagate : Bool
  handlers : List Handler
deriving DecidableEq

/-- The process-wide registry of named loggers, keyed by name. -/
abbrev Registry := List (String × LoggerState)

/-- A logger object as logging.getLogger first creates it: level NOTSET,
propagate on, no handlers. -/
def freshLoggerState : LoggerState := { level := 0, propagate := true, handlers := [] }

/-- logging.getLogger: return the logger registered under the name, or a
fresh one. -/
def getLoggerState (reg : Registry) (name : String) : LoggerState :=
  ((reg.lookup name).getD freshLoggerState)

/-- Store the (possibly new) logger back in the registry under its name,
keeping one entry per name. -/
def setLoggerState : Registry → String → LoggerState → Registry
  | [], name, st => [(name, st)]
  | (n, s) :: rest, name, st =>
      if n = name then (n, st) :: rest else (n, s) :: setLoggerState rest name st

/-- Embedding of general_logger.  It fetches (or creates) the named
logger, sets its level to DEBUG and propagate to True, builds the file
handler only in the two recognized branches of log_file_type, then builds
the terminal handler (level DEBUG) and the SMTP handler (level CRITICAL,
built unconditionally from the supplied mail parameters), and attaches the
three handlers in the order file, terminal, email.  When log_file_type is
neither log nor json the local variable log_file_handler is never
assigned, so the first addHandler call raises UnboundLocalError and no
logger is returned; the error branch models that exception.  Python's
addHandler dedup check compares handler objects by identity and every call
constructs fresh handler objects, so each call appends its three handlers
unconditionally. -/
def general_logger (reg : Registry) (logger_name : String)
    (critical_email_host_address critical_email_address_list : List String)
    (critical_email_subject : String) (email_credentials : Option (String × String))
    (mail_host_detail : String) (log_file_type : String) (log_file_path : String) :
    Except String (Registry × LoggerState) :=
  let general_use_log := getLoggerState reg logger_name
  let general_use_log := { general_use_log with level := DEBUG, propagate := true }
  let log_file_handler_opt : Option Handler :=
    if log_file_type = "log" then
      some { kind := HandlerKind.fileH log_file_type (log_file_path ++ "." ++ log_file_type)
           , level := INFO }
    else if log_file_type = "json" then
      some { kind := HandlerKind.fileH log_file_type (log_file_path ++ "." ++ log_file_type)
           , level := INFO }
    else none
  let terminal_handler : Handler := { kind := HandlerKind.stream, level := DEBUG }
  let critical_email_handler : Handler :=
    { kind := HandlerKind.smtpH mail_host_detail critical_email_host_address
        critical_email_address_list critical_email_subject email_credentials
    , level := CRITICAL }
  match log_file_handler_opt with
  | none =>
      Except.error
        "UnboundLocalError: local variable \u0027log_file_handler\u0027 referenced before assignment"
  | some log_file_handler =>
      let final := { general_use_log with
        handlers := general_use_log.handlers
          ++ [log_file_handler, terminal_handler, critical_email_handler] }
      Except.ok (setLoggerState reg logger_name final, final)

/-- The handlers that handle a record of the given level: the logger
processes the record when its level is at least the logger's level, and
each handler emits when the record level is at least the handler's
level. -/
def handlersFired (st : LoggerState) (recLevel : Nat) : List Handler :=
  if st.level ≤ recLevel then
    st.handlers.filter (fun h => decide (h.level ≤ recLevel))
  else []

/-- Python percent-formatting with a mapping, for format strings built
from literal text and named fields of the shape percent, open paren, key,
close paren, conversion character (the only construct the terminal
templates use).  A field whose key is missing from the record mapping
raises, as logging's PercentStyle.format does when the percent operator
raises KeyError.  The fuel argument only bounds the recursion and is set
to the format length, which one step always consumes at least one
character of. -/
def pctFormatAux (record : List (String × String)) :
    Nat → List Char → Except String String
  | _, [] => Except.ok ""
  | 0, _ :: _ => Except.error "RecursionError"
  | fuel + 1, '%' :: '(' :: rest =>
      let key : String := String.mk (rest.takeWhile (fun c => c != ')'))
      match rest.dropWhile (fun c => c != ')') with
      | ')' :: _conv :: rest2 =>
          match record.lookup key with
          | some v => (pctFormatAux record fuel rest2).map (fun t => v ++ t)
          | none =>
              Except.error
                ("ValueError: Formatting field not found in record: \u0027" ++ key ++ "\u0027")
      | _ => Except.error "ValueError: incomplete format"
  | fuel + 1, c :: rest =>
      (pctFormatAux record fuel rest).map (fun t => String.singleton c ++ t)

/-- Apply a percent-format string to a record mapping. -/
def pctFormat (record : List (String × String)) (fmt : String) : Except String String :=
  pctFormatAux record fmt.data.length fmt.data

/-- The FORMATS class dictionary of CustomTerminalFormat, copied from the
source: one ANSI-styled template per severity level.  Every template
references the field names, which is not a LogRecord attribute (the
file template correctly uses name). -/
def CustomTerminalFormat_FORMATS : List (Nat × String) :=
  [(DEBUG, "\x1b[1;37m%(levelname)s\x1b[0m|%(asctime)s|\x1b[32;1m%(names)s\x1b[0m| %(message)s"),
   (INFO, "\x1b[34;1m%(levelname)s\x1b[0m|%(asctime)s|\x1b[32;1m%(names)s\x1b[0m| %(message)s"),
   (WARNING, "\x1b[33;1m%(levelname)s\x1b[0m|%(asctime)s|\x1b[32;1m%(names)s\x1b[0m|\x1b[33;21m %(message)s\x1b[0m"),
   (ERROR, "\x1b[31;1m%(levelname)s\x1b[0m|%(asctime)s|\x1b[32;1m%(names)s\x1b[0m|\x1b[31;21m %(message)s\x1b[0m"),
   (CRITICAL, "\x1b[37;1;41m%(levelname)s\x1b[0m|\x1b[37;1;41m%(asctime)s\x1b[0m|\x1b[37;1;41m%(names)s\x1b[0m|\x1b[37;1;41m %(message)s\x1b[0m")]

/-- CustomTerminalFormat.format: pick the template for the record's level
(FORMATS.get yields None off the five levels, and Formatter(None) formats
with the bare message template) and percent-format the record with it. -/
def CustomTerminalFormat_format (levelno : Nat)
    (record : List (String × String)) : Except String String :=
  pctFormat record ((CustomTerminalFormat_FORMATS.lookup levelno).getD "%(message)s")

/-- The attribute names a logging.LogRecord carries when a record is
formatted (message set by format, asctime set when the template uses
it). -/
def logRecordAttrs : List String :=
  ["name", "msg", "args", "levelname", "levelno", "pathname", "filename",
   "module", "exc_info", "exc_text", "stack_info", "lineno", "funcName",
   "created", "msecs", "relativeCreated", "thread", "threadName",
   "processName", "process", "message", "asctime"]

/-- A concrete LogRecord attribute mapping for one emitted event (values
stringified as the percent-s conversion would render them). -/
def sampleRecord : List (String × String) :=
  [("name", "general_log"), ("msg", "hello"), ("args", "()"),
   ("levelname", "DEBUG"), ("levelno", "10"),
   ("pathname", "general_logger_setup.py"), ("filename", "general_logger_setup.py"),
   ("module", "general_logger_setup"), ("exc_info", "None"), ("exc_text", "None"),
   ("stack_info", "None"), ("lineno", "1"), ("funcName", "main"),
   ("created", "0"), ("msecs", "0"), ("relativeCreated", "0"),
   ("thread", "1"), ("threadName", "MainThread"),
   ("processName", "MainProcess"), ("process", "1"),
   ("message", "hello"), ("asctime", "2026-10-12 00:00:00")]

/-- The file handler built by the defaults of general_logger (log mode). -/
def fileLogHandler : Handler :=
  { kind := HandlerKind.fileH "log" "2026_10_12_general_log.log", level := INFO }

/-- The terminal handler built by general_logger. -/
def terminalHandler : Handler := { kind := HandlerKind.stream, level := DEBUG }

/-- The SMTP handler built by the defaults of general_logger. -/
def criticalEmailHandler : Handler :=
  { kind := HandlerKind.smtpH "localhost" [] [] "CRITICAL level triggered" none
  , level := CRITICAL }

/-- The logger state produced by one general_logger call on a fresh
registry with default mail arguments and log file mode. -/
def generalLogState1 : LoggerState :=
  { level := DEBUG, propagate := true
  , handlers := [fileLogHandler, terminalHandler, criticalEmailHandler] }

/-- The logger state after a second identical general_logger call: the
same singleton logger with a second copy of the three handlers. -/
def generalLogState2 : LoggerState :=
  { level := DEBUG, propagate := true
  , handlers := generalLogState1.handlers ++ generalLogState1.handlers }

/-- The error raised by percent-formatting any of the five terminal
templates against a LogRecord: the field names is not a record
attribute. -/
def namesFieldError : String :=
  "ValueError: Formatting field not found in record: \u0027names\u0027"

/-- C7: with the logger built by general_logger, an event of each of the
five severities reaches the console sink (and the file sink exactly for
info level and above, the email sink exactly for critical), but the
console sink never produces its one formatted line: every terminal
template references the field names, which no LogRecord carries (the
record here holds every real LogRecord attribute and no names key), so
formatting raises ValueError at all five severities and logging emits an
error dump instead of the line. -/
theorem general_logger_console_never_formats :
    terminalHandler ∈ handlersFired generalLogState1 DEBUG ∧
    terminalHandler ∈ handlersFired generalLogState1 INFO ∧
    terminalHandler ∈ handlersFired generalLogState1 WARNING ∧
    terminalHandler ∈ handlersFired generalLogState1 ERROR ∧
    terminalHandler ∈ handlersFired generalLogState1 CRITICAL ∧
    sampleRecord.all (fun kv => logRecordAttrs.contains kv.1) = true ∧
    sampleRecord.lookup "names" = none ∧
    CustomTerminalFormat_format DEBUG sampleRecord = Except.error namesFieldError ∧
    CustomTerminalFormat_format INFO sampleRecord = Except.error namesFieldError ∧
    CustomTerminalFormat_format WARNING sampleRecord = Except.error namesFieldError ∧
    CustomTerminalFormat_format ERROR sampleRecord = Except.error namesFieldError ∧
    CustomTerminalFormat_format CRITICAL sampleRecord = Except.error namesFieldError ∧
    fileLogHandler ∈ handlersFired generalLogState1 INFO ∧
    fileLogHandler ∉ handlersFired generalLogState1 DEBUG ∧
    criticalEmailHandler ∈ handlersFired generalLogState1 CRITICAL ∧
    criticalEmailHandler ∉ handlersFired generalLogState1 ERROR :=
  ⟨by decide, by decide, by decide, by decide, by decide, by decide, by decide,
   rfl, rfl, rfl, rfl, rfl,
   by decide, by decide, by decide, by decide⟩

/-- C8: when the file-output mode is none (any value that is neither log
nor json), general_logger does not return a logger at all: the local
variable log_file_handler is never assigned, so the first addHandler call
raises UnboundLocalError and no sink is attached. -/
theorem general_logger_filetype_none_crashes (reg : Registry) (name : String)
    (hosts addrs : List String) (subj : String) (creds : Option (String × String))
    (mailhost ftype path : String)
    (h1 : ftype ≠ "log") (h2 : ftype ≠ "json") :
    general_logger reg name hosts addrs subj creds mailhost ftype path
      = Except.error
          "UnboundLocalError: local variable \u0027log_file_handler\u0027 referenced before assignment" := by
  unfold general_logger
  simp [h1, h2]

theorem general_logger_filetype_none_crashes_witness :
    general_logger [] "general_log" [] [] "CRITICAL level triggered" none
        "localhost" "none" "2026_10_12_general_log"
      = Except.error
          "UnboundLocalError: local variable \u0027log_file_handler\u0027 referenced before assignment" :=
  general_logger_filetype_none_crashes [] "general_log" [] [] "CRITICAL level triggered"
    none "localhost" "none" "2026_10_12_general_log" (by decide) (by decide)

/-- C9: general_logger is not idempotent in the logger name.  Named
loggers are registry singletons keyed by name, so a second call with the
same name reads the very registry entry the first call stored and appends
a second set of the three sinks: the handler list goes from three to six,
duplicating each sink. -/
theorem general_logger_duplicate_sinks :
    general_logger [] "general_log" [] [] "CRITICAL level triggered" none
        "localhost" "log" "2026_10_12_general_log"
      = Except.ok ([("general_log", generalLogState1)], generalLogState1) ∧
    general_logger [("general_log", generalLogState1)] "general_log" [] []
        "CRITICAL level triggered" none "localhost" "log" "2026_10_12_general_log"
      = Except.ok ([("general_log", generalLogState2)], generalLogState2) ∧
    generalLogState2.handlers = generalLogState1.handlers ++ generalLogState1.handlers ∧
    generalLogState1.handlers.length = 3 ∧
    generalLogState2.handlers.length = 6 :=
  ⟨rfl, rfl, rfl, by decide, by decide⟩

/-- C10: whenever general_logger returns a logger (for any registry, name,
mail parameters, credentials and file path), the SMTP handler built from
the supplied mail parameters is attached at level CRITICAL - also with the
default empty sender, empty recipient list and no credentials - and it
fires for a critical-level event. -/
theorem general_logger_smtp_always_attached (reg : Registry) (name : String)
    (hosts addrs : List String) (subj : String) (creds : Option (String × String))
    (mailhost ftype path : String) (reg2 : Registry) (st : LoggerState)
    (h : general_logger reg name hosts addrs subj creds mailhost ftype path
          = Except.ok (reg2, st)) :
    ({ kind := HandlerKind.smtpH mailhost hosts addrs subj creds
     , level := CRITICAL : Handler }) ∈ st.handlers ∧
    ({ kind := HandlerKind.smtpH mailhost hosts addrs subj creds
     , level := CRITICAL : Handler }) ∈ handlersFired st CRITICAL := by
  unfold general_logger at h
  split at h
  · simp only [Except.ok.injEq, Prod.mk.injEq] at h
    obtain ⟨hreg, hst⟩ := h
    subst hst
    refine ⟨by simp, ?_⟩
    simp [handlersFired, List.mem_filter, DEBUG, CRITICAL]
  · split at h
    · simp only [Except.ok.injEq, Prod.mk.injEq] at h
      obtain ⟨hreg, hst⟩ := h
      subst hst
      refine ⟨by simp, ?_⟩
      simp [handlersFired, List.mem_filter, DEBUG, CRITICAL]
    · simp at h

theorem general_logger_smtp_always_attached_witness :
    criticalEmailHandler ∈ generalLogState1.handlers ∧
    criticalEmailHandler ∈ handlersFired generalLogState1 CRITICAL :=
  general_logger_smtp_always_attached [] "general_log" [] [] "CRITICAL level triggered"
    none "localhost" "log" "2026_10_12_general_log"
    [("general_log", generalLogState1)] generalLogState1 rfl

end GeneralLoggerPy
